import Mathlib

/-!
Verification of the `interruptable` crate (src/lib.rs): a decorator over a
byte stream that rejects read/write/flush calls when a shared interrupt flag
is set, and reclassifies an `Interrupted`-kind failure observed while the
flag is set.

Shallow embedding conventions:
* the shared `AtomicBool` becomes an explicit `Bool` threaded through every
  operation;
* `io::Error` becomes `IOError`: an error kind together with an optional
  wrapped cause (mirroring `io::Error::new(kind, cause)` / `get_ref`);
* an inner stream becomes a record of state-passing functions over an
  arbitrary state type; each inner call also receives and returns the flag,
  because the external flag owner may flip it during a blocking inner call
  (the crate's own tests model exactly this with their `Mock`);
* buffers are `List Nat` (byte values).
-/

namespace Spec2Proof

/-- The `io::ErrorKind` values that occur in the crate and its tests. -/
inductive IOErrorKind : Type where
  | interrupted
  | other
  | brokenPipe
  | unexpectedEof
  | wouldBlock
  deriving DecidableEq

/-- Model of `std::io::Error`: either a bare kind (as built by
`io::Error::from(kind)`) or a kind wrapping an inner cause error (as built
by `io::Error::new(kind, cause)`). -/
inductive IOError : Type where
  | simple (kind : IOErrorKind)
  | wrapped (kind : IOErrorKind) (cause : IOError)
  deriving DecidableEq

/-- Mirrors `io::Error::kind()`. -/
def IOError.kind : IOError → IOErrorKind
  | .simple k => k
  | .wrapped k _ => k

/-- Mirrors `io::Error::get_ref()`: the inspectable wrapped cause, if any. -/
def IOError.getRef : IOError → Option IOError
  | .simple _ => none
  | .wrapped _ c => some c

/-- Mirrors `Interruptable::das_error` (src/lib.rs lines 56-62):
`io::Error::new(ErrorKind::Other, io::Error::from(ErrorKind::Interrupted))`.
Note it takes no argument: the cause is a freshly made bare interrupted
error, not the error the inner operation produced. -/
def dasError : IOError :=
  IOError.wrapped IOErrorKind.other (IOError.simple IOErrorKind.interrupted)

/-- Mirrors `Interruptable::check_again` (src/lib.rs lines 44-54). `flag` is
the value loaded from the shared flag at the moment of the post-check. -/
def checkAgain (flag : Bool) (e : IOError) : IOError :=
  if e.kind = IOErrorKind.interrupted ∧ flag = true then dasError else e

/-- An inner stream over state type `σ`: the operations of `io::Read` and
`io::Write` as state-passing functions. Each operation also receives the
current flag value and returns the (possibly externally updated) flag, so
that a flag set during a blocking inner call is expressible. `read` returns
the byte count together with the filled buffer; `write` returns the byte
count. -/
structure IOStream (σ : Type) : Type where
  read : σ → Bool → List Nat → (Except IOError (Nat × List Nat)) × σ × Bool
  write : σ → Bool → List Nat → (Except IOError Nat) × σ × Bool
  flush : σ → Bool → (Except IOError Unit) × σ × Bool

/-- Mirrors `Interruptable::new` (src/lib.rs lines 37-42): stores the inner
stream state and the flag handle, touching neither. -/
def new {σ : Type} (inner : σ) (interruptFlag : Bool) : σ × Bool :=
  (inner, interruptFlag)

/-- Mirrors `<Interruptable as io::Read>::read` (src/lib.rs lines 67-73):
pre-check the flag; if set, fail with `dasError` without calling the inner
stream; otherwise delegate and map any error through `checkAgain`, sampling
the flag as it stands after the inner call. -/
def read {σ : Type} (S : IOStream σ) (st : σ) (flag : Bool) (buf : List Nat) :
    (Except IOError (Nat × List Nat)) × σ × Bool :=
  if flag then
    (Except.error dasError, st, flag)
  else
    let q := S.read st flag buf
    (Except.mapError (checkAgain q.2.2) q.1, q.2.1, q.2.2)

/-- Mirrors `<Interruptable as io::Write>::write` (src/lib.rs lines 78-84). -/
def write {σ : Type} (S : IOStream σ) (st : σ) (flag : Bool) (buf : List Nat) :
    (Except IOError Nat) × σ × Bool :=
  if flag then
    (Except.error dasError, st, flag)
  else
    let q := S.write st flag buf
    (Except.mapError (checkAgain q.2.2) q.1, q.2.1, q.2.2)

/-- Mirrors `<Interruptable as io::Write>::flush` (src/lib.rs lines 87-93). -/
def flush {σ : Type} (S : IOStream σ) (st : σ) (flag : Bool) :
    (Except IOError Unit) × σ × Bool :=
  if flag then
    (Except.error dasError, st, flag)
  else
    let q := S.flush st flag
    (Except.mapError (checkAgain q.2.2) q.1, q.2.1, q.2.2)

/-- Instrumented inner stream: alongside the base state it keeps a log of
one entry per invocation (for `read` and `write`, the buffer that was
forwarded; for `flush`, an empty entry). The log makes the number of inner
invocations and the forwarded buffers observable. -/
def counted {σ : Type} (S : IOStream σ) : IOStream (σ × List (List Nat)) where
  read := fun p flag buf =>
    let q := S.read p.1 flag buf
    (q.1, (q.2.1, p.2 ++ [buf]), q.2.2)
  write := fun p flag buf =>
    let q := S.write p.1 flag buf
    (q.1, (q.2.1, p.2 ++ [buf]), q.2.2)
  flush := fun p flag =>
    let q := S.flush p.1 flag
    (q.1, (q.2.1, p.2 ++ [[]]), q.2.2)

/-- A call a caller can make on the decorator. -/
inductive Op : Type where
  | read (buf : List Nat)
  | write (buf : List Nat)
  | flush
  deriving DecidableEq

/-- Unified result of one decorator call, for sequencing. -/
inductive OpResult : Type where
  | readOk (n : Nat) (buf : List Nat)
  | writeOk (n : Nat)
  | flushOk
  | ioError (e : IOError)
  deriving DecidableEq

/-- Runs one decorator call. -/
def runOp {σ : Type} (S : IOStream σ) (st : σ) (flag : Bool) :
    Op → OpResult × σ × Bool
  | Op.read buf =>
    let q := read S st flag buf
    (match q.1 with
      | Except.ok v => OpResult.readOk v.1 v.2
      | Except.error e => OpResult.ioError e, q.2.1, q.2.2)
  | Op.write buf =>
    let q := write S st flag buf
    (match q.1 with
      | Except.ok n => OpResult.writeOk n
      | Except.error e => OpResult.ioError e, q.2.1, q.2.2)
  | Op.flush =>
    let q := flush S st flag
    (match q.1 with
      | Except.ok _ => OpResult.flushOk
      | Except.error e => OpResult.ioError e, q.2.1, q.2.2)

/-- Runs a sequence of decorator calls, threading inner state and flag. -/
def runOps {σ : Type} (S : IOStream σ) (st : σ) (flag : Bool) :
    List Op → List OpResult × σ × Bool
  | [] => ([], st, flag)
  | op :: ops =>
    let r := runOp S st flag op
    let rest := runOps S r.2.1 r.2.2 ops
    (r.1 :: rest.1, rest.2.1, rest.2.2)

/-- A concrete inner stream serving bytes from a stored list, after the
`Mock` reader of the crate's tests: `read` fills the buffer from the source
and consumes it; it never touches the flag. -/
def byteSource : IOStream (List Nat) where
  read := fun src flag buf =>
    let len := min buf.length src.length
    (Except.ok (len, src.take len), src.drop len, flag)
  write := fun src flag buf => (Except.ok buf.length, src, flag)
  flush := fun src flag => (Except.ok (), src, flag)

/-- A concrete inner stream returning fixed results, after the `Mock` of the
crate's tests: when `setFlag` is true, every inner call also stores `true`
into the shared flag, modelling the external owner flipping it during the
call. -/
def mock (readRes : Except IOError (Nat × List Nat)) (writeRes : Except IOError Nat)
    (flushRes : Except IOError Unit) (setFlag : Bool) : IOStream Unit where
  read := fun _ flag _ => (readRes, (), flag || setFlag)
  write := fun _ flag _ => (writeRes, (), flag || setFlag)
  flush := fun _ flag => (flushRes, (), flag || setFlag)

/-- An interrupted-kind inner error that carries a payload, built as Rust
allows with `io::Error::new(ErrorKind::Interrupted, cause)`. -/
def payloadInterrupted : IOError :=
  IOError.wrapped IOErrorKind.interrupted (IOError.simple IOErrorKind.brokenPipe)

theorem read_flagTrue {σ : Type} (S : IOStream σ) (st : σ) (buf : List Nat) :
    read S st true buf = (Except.error dasError, st, true) := rfl

theorem write_flagTrue {σ : Type} (S : IOStream σ) (st : σ) (buf : List Nat) :
    write S st true buf = (Except.error dasError, st, true) := rfl

theorem flush_flagTrue {σ : Type} (S : IOStream σ) (st : σ) :
    flush S st true = (Except.error dasError, st, true) := rfl

theorem checkAgain_not_interrupted (flag : Bool) (e : IOError)
    (hk : e.kind ≠ IOErrorKind.interrupted) : checkAgain flag e = e := by
  simp [checkAgain, hk]

theorem checkAgain_flag_false (e : IOError) : checkAgain false e = e := by
  simp [checkAgain]

theorem checkAgain_interrupted_true (e : IOError)
    (hk : e.kind = IOErrorKind.interrupted) : checkAgain true e = dasError := by
  simp [checkAgain, hk]

theorem read_delegate {σ : Type} (S : IOStream σ) (st : σ) (buf : List Nat) :
    read S st false buf =
      (Except.mapError (checkAgain (S.read st false buf).2.2) (S.read st false buf).1,
        (S.read st false buf).2.1, (S.read st false buf).2.2) := rfl

theorem write_delegate {σ : Type} (S : IOStream σ) (st : σ) (buf : List Nat) :
    write S st false buf =
      (Except.mapError (checkAgain (S.write st false buf).2.2) (S.write st false buf).1,
        (S.write st false buf).2.1, (S.write st false buf).2.2) := rfl

theorem flush_delegate {σ : Type} (S : IOStream σ) (st : σ) :
    flush S st false =
      (Except.mapError (checkAgain (S.flush st false).2.2) (S.flush st false).1,
        (S.flush st false).2.1, (S.flush st false).2.2) := rfl

/-- Claim C2: for every operation (read, write, flush) and every inner
stream, if the flag is true at the pre-check the decorator returns exactly
the flag-triggered interruption error `dasError`, with the inner state and
flag unchanged — the result is a constant not depending on the inner stream,
and the instrumented stream records zero inner invocations, so the inner
operation is never invoked. -/
theorem precheck_short_circuit {σ : Type} (S : IOStream σ) (st : σ)
    (log : List (List Nat)) (buf : List Nat) :
    read S st true buf = (Except.error dasError, st, true) ∧
    write S st true buf = (Except.error dasError, st, true) ∧
    flush S st true = (Except.error dasError, st, true) ∧
    (read (counted S) (st, log) true buf).2.1.2 = log ∧
    (write (counted S) (st, log) true buf).2.1.2 = log ∧
    (flush (counted S) (st, log) true).2.1.2 = log :=
  ⟨rfl, rfl, rfl, rfl, rfl, rfl⟩

theorem counted_read_log {σ : Type} (S : IOStream σ) (st : σ)
    (log : List (List Nat)) (buf : List Nat) (flag : Bool) :
    (read (counted S) (st, log) flag buf).2.1.2 =
      (if flag then log else log ++ [buf]) := by
  cases flag
  · simp [read, counted]
  · simp [read]

theorem counted_write_log {σ : Type} (S : IOStream σ) (st : σ)
    (log : List (List Nat)) (buf : List Nat) (flag : Bool) :
    (write (counted S) (st, log) flag buf).2.1.2 =
      (if flag then log else log ++ [buf]) := by
  cases flag
  · simp [write, counted]
  · simp [write]

theorem counted_flush_log {σ : Type} (S : IOStream σ) (st : σ)
    (log : List (List Nat)) (flag : Bool) :
    (flush (counted S) (st, log) flag).2.1.2 =
      (if flag then log else log ++ [[]]) := by
  cases flag
  · simp [flush, counted]
  · simp [flush]

/-- Claim C7: for every call to read, write or flush on the decorator and
every inner stream, the instrumented invocation log grows by exactly one
entry when the pre-check passes (the entry being the very buffer the caller
supplied, forwarded unmodified) and by zero entries when the pre-check
fails: the inner operation is invoked at most once and never retried. -/
theorem inner_invoked_at_most_once {σ : Type} (S : IOStream σ) (st : σ)
    (log : List (List Nat)) (buf : List Nat) (flag : Bool) :
    (read (counted S) (st, log) flag buf).2.1.2 =
      (if flag then log else log ++ [buf]) ∧
    (write (counted S) (st, log) flag buf).2.1.2 =
      (if flag then log else log ++ [buf]) ∧
    (flush (counted S) (st, log) flag).2.1.2 =
      (if flag then log else log ++ [[]]) :=
  ⟨counted_read_log S st log buf flag, counted_write_log S st log buf flag,
    counted_flush_log S st log flag⟩

/-- Claim C9: for every inner stream and every sequence of decorator calls
made while the flag is set, no call returns success: every call (including
immediate retries) returns the same reclassified flag-triggered interruption
error `dasError`, the inner state is never touched, and the flag remains
true — and this persists until some external action clears the flag, since
the decorator itself never changes it. -/
theorem flag_set_rejects_all {σ : Type} (S : IOStream σ) (st : σ)
    (ops : List Op) :
    runOps S st true ops =
      (ops.map fun _ => OpResult.ioError dasError, st, true) := by
  induction ops with
  | nil => rfl
  | cons op ops ih =>
    have hop : runOp S st true op = (OpResult.ioError dasError, st, true) := by
      cases op <;> rfl
    simp [runOps, hop, ih]

theorem read_inner_err {σ : Type} (S : IOStream σ) (st st' : σ) (buf : List Nat)
    (e : IOError) (flag' : Bool)
    (h : S.read st false buf = (Except.error e, st', flag')) :
    read S st false buf = (Except.error (checkAgain flag' e), st', flag') := by
  simp [read, h, Except.mapError]

theorem write_inner_err {σ : Type} (S : IOStream σ) (st st' : σ) (buf : List Nat)
    (e : IOError) (flag' : Bool)
    (h : S.write st false buf = (Except.error e, st', flag')) :
    write S st false buf = (Except.error (checkAgain flag' e), st', flag') := by
  simp [write, h, Except.mapError]

theorem flush_inner_err {σ : Type} (S : IOStream σ) (st st' : σ)
    (e : IOError) (flag' : Bool)
    (h : S.flush st false = (Except.error e, st', flag')) :
    flush S st false = (Except.error (checkAgain flag' e), st', flag') := by
  simp [flush, h, Except.mapError]

/-- Claim C3: for every operation, if the pre-check passes (flag false) and
the inner operation fails with an error whose kind is not `interrupted`, the
decorator returns that inner error unchanged — same value, hence same kind
and payload — whatever the flag's value at the post-check. -/
theorem passthrough_unrelated_errors {σ : Type} (S : IOStream σ) (st st' : σ)
    (buf : List Nat) (e : IOError) (flag' : Bool)
    (hk : e.kind ≠ IOErrorKind.interrupted) :
    (S.read st false buf = (Except.error e, st', flag') →
      read S st false buf = (Except.error e, st', flag')) ∧
    (S.write st false buf = (Except.error e, st', flag') →
      write S st false buf = (Except.error e, st', flag')) ∧
    (S.flush st false = (Except.error e, st', flag') →
      flush S st false = (Except.error e, st', flag')) := by
  refine ⟨fun h => ?_, fun h => ?_, fun h => ?_⟩
  · rw [read_inner_err S st st' buf e flag' h, checkAgain_not_interrupted flag' e hk]
  · rw [write_inner_err S st st' buf e flag' h, checkAgain_not_interrupted flag' e hk]
  · rw [flush_inner_err S st st' e flag' h, checkAgain_not_interrupted flag' e hk]

/-- Witness for C3: a broken-pipe inner failure passes through even though
the inner call sets the flag (post-check flag true). -/
theorem passthrough_unrelated_errors_witness :
    read (mock (Except.error (IOError.simple IOErrorKind.brokenPipe))
        (Except.error (IOError.simple IOErrorKind.brokenPipe))
        (Except.error (IOError.simple IOErrorKind.brokenPipe)) true) () false [0] =
      (Except.error (IOError.simple IOErrorKind.brokenPipe), (), true) :=
  (passthrough_unrelated_errors _ () () [0]
    (IOError.simple IOErrorKind.brokenPipe) true (by decide)).1 rfl

/-- Claim C4: for every operation, if the pre-check passes and the inner
operation fails with an `interrupted`-kind error while the flag is false at
the post-check, the decorator returns that very error unchanged, with no
reclassification. -/
theorem passthrough_plain_interrupted {σ : Type} (S : IOStream σ) (st st' : σ)
    (buf : List Nat) (e : IOError)
    (_hk : e.kind = IOErrorKind.interrupted) :
    (S.read st false buf = (Except.error e, st', false) →
      read S st false buf = (Except.error e, st', false)) ∧
    (S.write st false buf = (Except.error e, st', false) →
      write S st false buf = (Except.error e, st', false)) ∧
    (S.flush st false = (Except.error e, st', false) →
      flush S st false = (Except.error e, st', false)) := by
  refine ⟨fun h => ?_, fun h => ?_, fun h => ?_⟩
  · rw [read_inner_err S st st' buf e false h, checkAgain_flag_false e]
  · rw [write_inner_err S st st' buf e false h, checkAgain_flag_false e]
  · rw [flush_inner_err S st st' e false h, checkAgain_flag_false e]

/-- Witness for C4: an interrupted inner failure with the flag staying false
is returned as the plain interrupted error. -/
theorem passthrough_plain_interrupted_witness :
    read (mock (Except.error (IOError.simple IOErrorKind.interrupted))
        (Except.error (IOError.simple IOErrorKind.interrupted))
        (Except.error (IOError.simple IOErrorKind.interrupted)) false) () false [0] =
      (Except.error (IOError.simple IOErrorKind.interrupted), (), false) :=
  (passthrough_plain_interrupted _ () () [0]
    (IOError.simple IOErrorKind.interrupted) rfl).1 rfl

theorem read_inner_ok {σ : Type} (S : IOStream σ) (st st' : σ) (buf : List Nat)
    (n : Nat) (out : List Nat) (flag' : Bool)
    (h : S.read st false buf = (Except.ok (n, out), st', flag')) :
    read S st false buf = (Except.ok (n, out), st', flag') := by
  simp [read, h, Except.mapError]

theorem write_inner_ok {σ : Type} (S : IOStream σ) (st st' : σ) (buf : List Nat)
    (n : Nat) (flag' : Bool)
    (h : S.write st false buf = (Except.ok n, st', flag')) :
    write S st false buf = (Except.ok n, st', flag') := by
  simp [write, h, Except.mapError]

theorem flush_inner_ok {σ : Type} (S : IOStream σ) (st st' : σ) (flag' : Bool)
    (h : S.flush st false = (Except.ok (), st', flag')) :
    flush S st false = (Except.ok (), st', flag') := by
  simp [flush, h, Except.mapError]

/-- Claim C5: for every operation, if the flag is false at the pre-check and
the inner operation succeeds, the decorator returns the inner result exactly
— the same byte count for read and write, the same success for flush, and
for read the very buffer contents the inner operation produced. -/
theorem success_passthrough {σ : Type} (S : IOStream σ) (st st' : σ)
    (buf : List Nat) (n : Nat) (out : List Nat) (flag' : Bool) :
    (S.read st false buf = (Except.ok (n, out), st', flag') →
      read S st false buf = (Except.ok (n, out), st', flag')) ∧
    (S.write st false buf = (Except.ok n, st', flag') →
      write S st false buf = (Except.ok n, st', flag')) ∧
    (S.flush st false = (Except.ok (), st', flag') →
      flush S st false = (Except.ok (), st', flag')) :=
  ⟨read_inner_ok S st st' buf n out flag', write_inner_ok S st st' buf n flag',
    flush_inner_ok S st st' flag'⟩

/-- Witness for C5 (Scenario A of the spec): flag false, a 42-byte request
from a 100-byte source of byte value 42 returns `ok 42` with the buffer
filled with 42s. -/
theorem success_passthrough_witness :
    read byteSource (List.replicate 100 42) false (List.replicate 42 0) =
      (Except.ok (42, List.replicate 42 42), List.replicate 58 42, false) :=
  (success_passthrough byteSource (List.replicate 100 42) (List.replicate 58 42)
    (List.replicate 42 0) 42 (List.replicate 42 42) false).1 rfl

/-- Claim C10: the flag is re-sampled only on inner failure. For every
operation, if the flag is false at the pre-check and the inner operation
succeeds — even when the inner call itself left the flag set to true — the
decorator returns the success unchanged; a successful result is never
converted into the flag-triggered interruption error. -/
theorem success_despite_flag_set {σ : Type} (S : IOStream σ) (st st' : σ)
    (buf : List Nat) (n : Nat) (out : List Nat) :
    (S.read st false buf = (Except.ok (n, out), st', true) →
      read S st false buf = (Except.ok (n, out), st', true)) ∧
    (S.write st false buf = (Except.ok n, st', true) →
      write S st false buf = (Except.ok n, st', true)) ∧
    (S.flush st false = (Except.ok (), st', true) →
      flush S st false = (Except.ok (), st', true)) :=
  ⟨read_inner_ok S st st' buf n out true, write_inner_ok S st st' buf n true,
    flush_inner_ok S st st' true⟩

/-- Witness for C10: the inner read succeeds with one byte while setting the
flag; the decorator still reports the success. -/
theorem success_despite_flag_set_witness :
    read (mock (Except.ok (1, [7])) (Except.ok 1) (Except.ok ()) true) () false [0] =
      (Except.ok (1, [7]), (), true) :=
  (success_despite_flag_set _ () () [0] 1 [7]).1 rfl

/-- Counterexample to claim C1 as stated: the inner read fails with an
interrupted-kind error that carries a payload (`payloadInterrupted`), the
inner call sets the flag, so the post-check sees it true and the decorator
returns `dasError` — but the inspectable cause of `dasError` is a fresh bare
interrupted error, not the very error value the inner operation produced:
`dasError.getRef ≠ some payloadInterrupted`. -/
theorem reclassification_drops_original :
    (read (mock (Except.error payloadInterrupted) (Except.error payloadInterrupted)
        (Except.error payloadInterrupted) true) () false [0]).1 =
      Except.error dasError ∧
    payloadInterrupted.kind = IOErrorKind.interrupted ∧
    dasError.getRef ≠ some payloadInterrupted := by
  refine ⟨rfl, rfl, ?_⟩
  decide

/-- Claim C1 as amended: for every operation, if the inner operation fails
with an interrupted-kind error and the flag is true at the post-check, the
decorator returns the flag-triggered interruption error `dasError`, whose
inspectable cause is a freshly made bare interrupted-condition error
(of kind `interrupted`) — the original interrupted condition is recoverable
only as a category, not as the original error value with its payload. -/
theorem reclassification_with_fresh_cause {σ : Type} (S : IOStream σ)
    (st st' : σ) (buf : List Nat) (e : IOError)
    (hk : e.kind = IOErrorKind.interrupted) :
    (S.read st false buf = (Except.error e, st', true) →
      read S st false buf = (Except.error dasError, st', true)) ∧
    (S.write st false buf = (Except.error e, st', true) →
      write S st false buf = (Except.error dasError, st', true)) ∧
    (S.flush st false = (Except.error e, st', true) →
      flush S st false = (Except.error dasError, st', true)) ∧
    dasError.getRef = some (IOError.simple IOErrorKind.interrupted) ∧
    (IOError.simple IOErrorKind.interrupted).kind = e.kind := by
  refine ⟨fun h => ?_, fun h => ?_, fun h => ?_, rfl, by rw [hk]; rfl⟩
  · rw [read_inner_err S st st' buf e true h, checkAgain_interrupted_true e hk]
  · rw [write_inner_err S st st' buf e true h, checkAgain_interrupted_true e hk]
  · rw [flush_inner_err S st st' e true h, checkAgain_interrupted_true e hk]

/-- Witness for the amended C1: a bare interrupted inner failure with the
flag set during the call is reclassified to `dasError`. -/
theorem reclassification_with_fresh_cause_witness :
    read (mock (Except.error (IOError.simple IOErrorKind.interrupted))
        (Except.error (IOError.simple IOErrorKind.interrupted))
        (Except.error (IOError.simple IOErrorKind.interrupted)) true) () false [0] =
      (Except.error dasError, (), true) :=
  (reclassification_with_fresh_cause _ () () [0]
    (IOError.simple IOErrorKind.interrupted) rfl).1 rfl

/-- Claim C6: the flag-triggered interruption error — `dasError`, the one
error value produced both at the pre-check and by post-check
reclassification — has kind `other`, distinct from the plain `interrupted`
kind, so a caller matching on the `interrupted` kind never matches it; in
particular any interrupted-kind error that `checkAgain` reclassifies under a
true flag comes out with a kind that is no longer `interrupted`. -/
theorem distinct_error_category :
    dasError.kind = IOErrorKind.other ∧
    IOErrorKind.other ≠ IOErrorKind.interrupted ∧
    ∀ e : IOError, e.kind = IOErrorKind.interrupted →
      (checkAgain true e).kind ≠ IOErrorKind.interrupted := by
  refine ⟨rfl, by decide, fun e hk => ?_⟩
  rw [checkAgain_interrupted_true e hk]
  decide

/-- Witness for C6: reclassifying a bare interrupted error yields an error
whose kind is not `interrupted`. -/
theorem distinct_error_category_witness :
    (checkAgain true (IOError.simple IOErrorKind.interrupted)).kind ≠
      IOErrorKind.interrupted :=
  distinct_error_category.2.2 (IOError.simple IOErrorKind.interrupted) rfl

theorem read_flag_preserved {σ : Type} (S : IOStream σ) (st : σ) (flag : Bool)
    (buf : List Nat) (h : (S.read st flag buf).2.2 = flag) :
    (read S st flag buf).2.2 = flag := by
  cases flag
  · simpa [read] using h
  · simp [read]

theorem write_flag_preserved {σ : Type} (S : IOStream σ) (st : σ) (flag : Bool)
    (buf : List Nat) (h : (S.write st flag buf).2.2 = flag) :
    (write S st flag buf).2.2 = flag := by
  cases flag
  · simpa [write] using h
  · simp [write]

theorem flush_flag_preserved {σ : Type} (S : IOStream σ) (st : σ) (flag : Bool)
    (h : (S.flush st flag).2.2 = flag) :
    (flush S st flag).2.2 = flag := by
  cases flag
  · simpa [flush] using h
  · simp [flush]

/-- Claim C8: no decorator operation writes the flag. Construction returns
the flag handle untouched, and for every operation, whenever the inner
operation leaves the flag as it found it (i.e. no external action changes it
during the call), the decorator's call leaves it unchanged too: every change
to the flag across a call is attributable to external action, the decorator
only reads it. -/
theorem flag_never_written {σ : Type} (S : IOStream σ) (st : σ) (flag : Bool)
    (buf : List Nat) :
    ((S.read st flag buf).2.2 = flag → (read S st flag buf).2.2 = flag) ∧
    ((S.write st flag buf).2.2 = flag → (write S st flag buf).2.2 = flag) ∧
    ((S.flush st flag).2.2 = flag → (flush S st flag).2.2 = flag) ∧
    (new st flag).2 = flag :=
  ⟨read_flag_preserved S st flag buf, write_flag_preserved S st flag buf,
    flush_flag_preserved S st flag, rfl⟩

/-- Witness for C8: reading through the decorator from a flag-preserving
inner stream leaves the flag false. -/
theorem flag_never_written_witness :
    (read byteSource [1, 2, 3] false [0]).2.2 = false :=
  (flag_never_written byteSource [1, 2, 3] false [0]).1 rfl
